import Mathlib

/-!
# Shallow embedding of the shoom-backend room state machine

This file embeds the core of `src/index.ts` of the shoom-backend
repository: the per-room state (`RoomState`), the socket event handlers
(`admin_action`, `send_message`, subscriber join, `disconnect`), the global
1-second scheduler tick, the room registry (`getOrCreateRoom`) and the
`/api/token` route, and proves the specified properties about them.

Modelling conventions:
* JavaScript numbers that only ever hold integers (`timeLeft`,
  `viewersCount`, donation amounts) are modelled as `Int`.
* A value that may be `undefined` at runtime is modelled as an `Option`.
* The generated message id (`Date.now().toString() + Math.random()...`) is
  nondeterministic; it is modelled as an input field of the payload.
* Broadcasting (`io.to(roomId).emit(...)`) is a side effect with no effect
  on room state and is not modelled.
-/

/-- Embeds `type Phase = 'waiting' | 'intro' | 'roundA' | 'roundB' | 'ad' | 'voting' | 'rage' | 'finished'` -/
inductive Phase where
  | waiting | intro | roundA | roundB | ad | voting | rage | finished
deriving DecidableEq, Repr

/-- Embeds `type Player = 'A' | 'B'`. -/
inductive Player where
  | A | B
deriving DecidableEq, Repr

/-- Embeds `interface ChatMessage { id; user; text; isDonation; amount? }`.
The handler always assigns `amount: payload.amount || 0`, a number, so
`amount` is modelled as `Int`. -/
structure ChatMessage where
  id : String
  user : String
  text : String
  isDonation : Bool
  amount : Int
deriving DecidableEq, Repr

/-- An entry of `donations`. The interface declares `amount: number`, but the
handler pushes the raw `payload.amount`, which may be `undefined` at runtime,
so the dynamic value is modelled as `Option Int`. -/
structure Donation where
  user : String
  amount : Option Int
deriving DecidableEq, Repr

/-- Embeds `interface RoomState { phase; timeLeft; activePlayer; viewersCount; chatMessages; donations }` -/
structure RoomState where
  phase : Phase
  timeLeft : Int
  activePlayer : Option Player
  viewersCount : Int
  chatMessages : List ChatMessage
  donations : List Donation
deriving DecidableEq, Repr

/-- The default state inserted by `getOrCreateRoom`:
`{ phase: 'waiting', timeLeft: 0, activePlayer: null, viewersCount: 0, chatMessages: [], donations: [] }`. -/
def initRoom : RoomState :=
  { phase := .waiting, timeLeft := 0, activePlayer := none,
    viewersCount := 0, chatMessages := [], donations := [] }

/-- The three admin actions of the `admin_action` handler. -/
inductive AdminAction where
  | start | next_round | reset
deriving DecidableEq, Repr

/-- The `admin_action` socket handler (switch on `payload.action`),
acting on the room state. -/
def adminAction (r : RoomState) : AdminAction → RoomState
  | .start =>
      { r with phase := .intro, timeLeft := 15, activePlayer := none }
  | .next_round =>
      if r.phase = .intro then
        { r with phase := .roundA, timeLeft := 45, activePlayer := some .A }
      else if r.phase = .roundA then
        { r with phase := .roundB, timeLeft := 45, activePlayer := some .B }
      else if r.phase = .roundB then
        { r with phase := .ad, timeLeft := 5, activePlayer := none }
      else if r.phase = .ad then
        { r with phase := .voting, timeLeft := 0, activePlayer := none }
      else -- Force loop
        { r with phase := .roundA, timeLeft := 45, activePlayer := some .A }
  | .reset =>
      { phase := .waiting, timeLeft := 0, activePlayer := none,
        viewersCount := r.viewersCount, chatMessages := [], donations := [] }

/-- The inbound `send_message` payload
`{user: string, text: string, isDonation: boolean, amount?: number}`, plus
the generated message id (`Date.now().toString() + Math.random().toString(36).slice(2)`),
modelled as an input. -/
structure MsgPayload where
  id : String
  user : String
  text : String
  isDonation : Bool
  amount : Option Int
deriving DecidableEq, Repr

/-- The `newMessage` built by the `send_message` handler.
`payload.amount || 0` yields `0` when `amount` is `undefined` and also when
it is `0` (falsy), so on integers it equals `amount.getD 0`. -/
def mkChatMessage (p : MsgPayload) : ChatMessage :=
  { id := p.id, user := p.user, text := p.text,
    isDonation := p.isDonation, amount := p.amount.getD 0 }

/-- The `send_message` socket handler: push the new message, push the raw
`{user: payload.user, amount: payload.amount}` onto `donations` when
`payload.isDonation`, then truncate `chatMessages` to its last 50 entries
when its length exceeds 50 (`slice(-50)` keeps the last 50 elements, i.e.
drops `length - 50` from the front). -/
def sendMessage (r : RoomState) (p : MsgPayload) : RoomState :=
  let chat1 := r.chatMessages ++ [mkChatMessage p]
  let dons := if p.isDonation then r.donations ++ [⟨p.user, p.amount⟩] else r.donations
  let chat2 := if chat1.length > 50 then chat1.drop (chat1.length - 50) else chat1
  { r with chatMessages := chat2, donations := dons }

/-- Subscriber join (`connection` handler): `room.viewersCount++`. -/
def subscriberJoin (r : RoomState) : RoomState :=
  { r with viewersCount := r.viewersCount + 1 }

/-- The `disconnect` handler: decrement `viewersCount` only when it is
positive (`if (rooms[roomId] && rooms[roomId].viewersCount > 0)`). -/
def disconnect (r : RoomState) : RoomState :=
  if r.viewersCount > 0 then { r with viewersCount := r.viewersCount - 1 } else r

/-- One scheduler tick for one room (body of the `setInterval` loop):
decrement `timeLeft` when positive, then apply the auto-transition when the
(new) `timeLeft` is 0 and the phase is none of `waiting`, `voting`,
`finished`. -/
def tick (r : RoomState) : RoomState :=
  let r1 := if r.timeLeft > 0 then { r with timeLeft := r.timeLeft - 1 } else r
  if r1.timeLeft = 0 ∧ r1.phase ≠ .waiting ∧ r1.phase ≠ .voting ∧ r1.phase ≠ .finished then
    if r1.phase = .intro then
      { r1 with phase := .roundA, timeLeft := 45, activePlayer := some .A }
    else if r1.phase = .roundA then
      { r1 with phase := .roundB, timeLeft := 45, activePlayer := some .B }
    else if r1.phase = .roundB then
      { r1 with phase := .ad, timeLeft := 5, activePlayer := none }
    else if r1.phase = .ad then
      { r1 with phase := .voting, timeLeft := 0, activePlayer := none }
    else r1
  else r1

/-- Every room-mutating operation of the server. -/
inductive Op where
  | admin (a : AdminAction)
  | msg (p : MsgPayload)
  | tick
  | join
  | disconnect
deriving DecidableEq, Repr

/-- Apply one operation to a room state. -/
def step (r : RoomState) : Op → RoomState
  | .admin a => adminAction r a
  | .msg p => sendMessage r p
  | .tick => tick r
  | .join => subscriberJoin r
  | .disconnect => disconnect r

/-- Operations that drive the phase machine: admin actions and scheduler
ticks (the operations C3 quantifies over). -/
inductive PhaseOp where
  | admin (a : AdminAction)
  | tick
deriving DecidableEq, Repr

/-- Apply one phase-driving operation. -/
def phaseStep (r : RoomState) : PhaseOp → RoomState
  | .admin a => adminAction r a
  | .tick => tick r

/-- The room registry `rooms: Record<string, RoomState>`, modelled as an
association list keyed by room id. -/
abbrev Registry := List (String × RoomState)

/-- Lookup in the registry (`rooms[roomId]`). -/
def Registry.find (rs : Registry) (roomId : String) : Option RoomState :=
  match List.find? (fun kv => kv.1 = roomId) rs with
  | some kv => some kv.2
  | none => none

/-- Embeds `getOrCreateRoom`: insert the default state when the id is absent;
returns the updated registry together with the room. -/
def getOrCreateRoom (rs : Registry) (roomId : String) : Registry × RoomState :=
  match rs.find roomId with
  | some r => (rs, r)
  | none => (rs ++ [(roomId, initRoom)], initRoom)

/-- Truthiness of an optional JavaScript string: `undefined` and `""` are
falsy (`!roomName`). -/
def strPresent : Option String → Bool
  | none => false
  | some s => !(s = "")

/-- The `GET /api/token` route, modelled on its state-relevant behaviour:
the HTTP status returned and the registry after the call. `apiKey` and
`apiSecret` are the environment variables; `mintOk` models whether the
external `AccessToken`/`toJwt` call succeeds (its `catch` branch returns
500). -/
def tokenRoute (rs : Registry) (roomName participantName role : Option String)
    (apiKey apiSecret : Option String) (mintOk : Bool) : Nat × Registry :=
  if !(strPresent roomName) || !(strPresent participantName) then
    (400, rs)
  else
    let rs1 := (getOrCreateRoom rs (roomName.getD "")).1
    if !(strPresent apiKey) || !(strPresent apiSecret) then
      (500, rs1)
    else if mintOk then (200, rs1) else (500, rs1)

/-! ## The scheduler tick as a function of (phase, timeLeft, activePlayer)

The tick only reads and writes the `phase`, `timeLeft` and `activePlayer`
fields; `tickPTA` is its action on that triple, used to evaluate iterated
ticks on a symbolic room. -/

/-- Action of `tick` on the `(phase, timeLeft, activePlayer)` triple. -/
def tickPTA : Phase × Int × Option Player → Phase × Int × Option Player :=
  fun x =>
    let t1 := if x.2.1 > 0 then x.2.1 - 1 else x.2.1
    if t1 = 0 ∧ x.1 ≠ .waiting ∧ x.1 ≠ .voting ∧ x.1 ≠ .finished then
      if x.1 = .intro then (.roundA, 45, some .A)
      else if x.1 = .roundA then (.roundB, 45, some .B)
      else if x.1 = .roundB then (.ad, 5, none)
      else if x.1 = .ad then (.voting, 0, none)
      else (x.1, t1, x.2.2)
    else (x.1, t1, x.2.2)

/-- `tick` acts as `tickPTA` on the phase/timer/player triple and leaves the
other fields unchanged. -/
theorem tick_eq_tickPTA (r : RoomState) :
    tick r = { r with phase := (tickPTA (r.phase, r.timeLeft, r.activePlayer)).1,
                      timeLeft := (tickPTA (r.phase, r.timeLeft, r.activePlayer)).2.1,
                      activePlayer := (tickPTA (r.phase, r.timeLeft, r.activePlayer)).2.2 } := by
  obtain ⟨p, t, a, v, c, d⟩ := r
  simp only [tick, tickPTA]
  split <;> split <;> first | rfl | (rcases p <;> simp_all)

/-- Iterated ticks act as iterated `tickPTA` on the triple. -/
theorem tick_iter (n : Nat) (r : RoomState) :
    tick^[n] r = { r with phase := (tickPTA^[n] (r.phase, r.timeLeft, r.activePlayer)).1,
                          timeLeft := (tickPTA^[n] (r.phase, r.timeLeft, r.activePlayer)).2.1,
                          activePlayer := (tickPTA^[n] (r.phase, r.timeLeft, r.activePlayer)).2.2 } := by
  induction n generalizing r with
  | zero => simp
  | succ n ih =>
      rw [Function.iterate_succ_apply, Function.iterate_succ_apply, tick_eq_tickPTA r, ih]

/-- A room in `voting` with `timeLeft = 0` is a fixed point of the tick. -/
theorem tick_fixed (r : RoomState) (hp : r.phase = .voting) (ht : r.timeLeft = 0) :
    tick r = r := by
  simp [tick, hp, ht]

/-- Iterated ticks fix a room in `voting` with `timeLeft = 0`. -/
theorem tick_iterate_fixed (r : RoomState) (hp : r.phase = .voting) (ht : r.timeLeft = 0) :
    ∀ n, tick^[n] r = r := by
  intro n
  induction n with
  | zero => rfl
  | succ n ih => rw [Function.iterate_succ_apply', ih, tick_fixed r hp ht]

/-- Evaluation of 15 iterated `tickPTA` steps from `(intro, 15, a)`. -/
theorem tickPTA_iter_15 (a : Option Player) :
    tickPTA^[15] (.intro, 15, a) = (.roundA, 45, some .A) := by
  cases a with
  | none => decide
  | some p => cases p <;> decide

set_option maxRecDepth 4000 in
/-- Evaluation of 60 iterated `tickPTA` steps from `(intro, 15, a)`. -/
theorem tickPTA_iter_60 (a : Option Player) :
    tickPTA^[60] (.intro, 15, a) = (.roundB, 45, some .B) := by
  cases a with
  | none => decide
  | some p => cases p <;> decide

set_option maxRecDepth 4000 in
/-- Evaluation of 105 iterated `tickPTA` steps from `(intro, 15, a)`. -/
theorem tickPTA_iter_105 (a : Option Player) :
    tickPTA^[105] (.intro, 15, a) = (.ad, 5, none) := by
  cases a with
  | none => decide
  | some p => cases p <;> decide

set_option maxRecDepth 4000 in
/-- Evaluation of 110 iterated `tickPTA` steps from `(intro, 15, a)`. -/
theorem tickPTA_iter_110 (a : Option Player) :
    tickPTA^[110] (.intro, 15, a) = (.voting, 0, none) := by
  cases a with
  | none => decide
  | some p => cases p <;> decide

/-- C1: starting from a room state with phase `intro` and `timeLeft = 15`,
after 15 ticks the room is in `roundA` with `timeLeft = 45` and
`activePlayer = A`; after 45 more ticks (60 total) `roundB`/`45`/`B`; after
45 more (105 total) `ad`/`5`/none; after 5 more (110 total) `voting` with
`timeLeft = 0`; and every subsequent tick leaves the state unchanged. -/
theorem intro_tick_schedule (r : RoomState)
    (hp : r.phase = .intro) (ht : r.timeLeft = 15) :
    ((tick^[15] r).phase = .roundA ∧ (tick^[15] r).timeLeft = 45 ∧
      (tick^[15] r).activePlayer = some .A) ∧
    ((tick^[60] r).phase = .roundB ∧ (tick^[60] r).timeLeft = 45 ∧
      (tick^[60] r).activePlayer = some .B) ∧
    ((tick^[105] r).phase = .ad ∧ (tick^[105] r).timeLeft = 5 ∧
      (tick^[105] r).activePlayer = none) ∧
    ((tick^[110] r).phase = .voting ∧ (tick^[110] r).timeLeft = 0) ∧
    (∀ n, tick^[110 + n] r = tick^[110] r) := by
  have e : ∀ n, tick^[n] r =
      { r with phase := (tickPTA^[n] (.intro, (15 : Int), r.activePlayer)).1,
               timeLeft := (tickPTA^[n] (.intro, (15 : Int), r.activePlayer)).2.1,
               activePlayer := (tickPTA^[n] (.intro, (15 : Int), r.activePlayer)).2.2 } := by
    intro n
    rw [tick_iter, hp, ht]
  refine ⟨?_, ?_, ?_, ?_, ?_⟩
  · rw [e 15, tickPTA_iter_15]
    exact ⟨rfl, rfl, rfl⟩
  · rw [e 60, tickPTA_iter_60]
    exact ⟨rfl, rfl, rfl⟩
  · rw [e 105, tickPTA_iter_105]
    exact ⟨rfl, rfl, rfl⟩
  · rw [e 110, tickPTA_iter_110]
    exact ⟨rfl, rfl⟩
  · intro n
    have hv : (tick^[110] r).phase = .voting := by
      rw [e 110, tickPTA_iter_110]
    have h0 : (tick^[110] r).timeLeft = 0 := by
      rw [e 110, tickPTA_iter_110]
    rw [add_comm, Function.iterate_add_apply]
    exact tick_iterate_fixed _ hv h0 n

/-- The state used by the concrete witnesses: `intro` with 15 seconds left,
as produced by the `start` admin action. -/
def introRoom : RoomState := adminAction initRoom .start

/-- Witness for C1 at the concrete room `introRoom`. -/
theorem intro_tick_schedule_witness :
    introRoom.phase = .intro ∧ introRoom.timeLeft = 15 ∧
    ((tick^[15] introRoom).phase = .roundA ∧ (tick^[15] introRoom).timeLeft = 45 ∧
      (tick^[15] introRoom).activePlayer = some .A) ∧
    ((tick^[60] introRoom).phase = .roundB ∧ (tick^[60] introRoom).timeLeft = 45 ∧
      (tick^[60] introRoom).activePlayer = some .B) ∧
    ((tick^[105] introRoom).phase = .ad ∧ (tick^[105] introRoom).timeLeft = 5 ∧
      (tick^[105] introRoom).activePlayer = none) ∧
    ((tick^[110] introRoom).phase = .voting ∧ (tick^[110] introRoom).timeLeft = 0) ∧
    (∀ n, tick^[110 + n] introRoom = tick^[110] introRoom) :=
  ⟨rfl, rfl, intro_tick_schedule introRoom rfl rfl⟩

/-! ## Invariant preservation -/

/-- Generic preservation of a predicate along a left fold. -/
theorem foldl_preserve {σ α : Type} (P : σ → Prop) (f : σ → α → σ)
    (hf : ∀ s a, P s → P (f s a)) : ∀ (l : List α) (s : σ), P s → P (l.foldl f s)
  | [], _, h => h
  | a :: l, s, h => foldl_preserve P f hf l (f s a) (hf s a h)

/-- Each operation keeps `timeLeft` non-negative. -/
theorem step_timeLeft_nonneg (r : RoomState) (op : Op) (h : 0 ≤ r.timeLeft) :
    0 ≤ (step r op).timeLeft := by
  cases op with
  | admin a =>
      cases a <;> simp only [step, adminAction] <;> (try split_ifs) <;> simp
  | msg p => simpa [step, sendMessage] using h
  | tick =>
      obtain ⟨p, t, a, v, c, d⟩ := r
      simp only [step, tick]
      split_ifs <;> (try simp_all) <;> omega
  | join =>
      simp only [step, subscriberJoin]
      exact h
  | disconnect =>
      simp only [step, disconnect]
      split_ifs <;> exact h

/-- Each operation keeps the chat log at no more than 50 entries. -/
theorem step_chat_le_50 (r : RoomState) (op : Op) (h : r.chatMessages.length ≤ 50) :
    (step r op).chatMessages.length ≤ 50 := by
  cases op with
  | admin a =>
      cases a <;> simp only [step, adminAction] <;> (try split_ifs) <;> simpa
  | msg p =>
      simp only [step, sendMessage]
      split_ifs with hl
      · simp only [List.length_drop]
        omega
      · simp only [List.length_append, List.length_singleton] at hl ⊢
        omega
  | tick =>
      obtain ⟨p, t, a, v, c, d⟩ := r
      simp only [step, tick]
      split_ifs <;> simpa using h
  | join =>
      simp only [step, subscriberJoin]
      exact h
  | disconnect =>
      simp only [step, disconnect]
      split_ifs <;> exact h

/-- C2: from the initial room state, after any sequence of operations
(admin actions, chat messages, scheduler ticks, subscriber joins,
disconnects) the room satisfies `0 ≤ timeLeft` and
`chatMessages.length ≤ 50`. -/
theorem reachable_timer_and_chat_bounds (ops : List Op) :
    0 ≤ (ops.foldl step initRoom).timeLeft ∧
    (ops.foldl step initRoom).chatMessages.length ≤ 50 := by
  refine foldl_preserve
    (fun r => 0 ≤ r.timeLeft ∧ r.chatMessages.length ≤ 50) step
    (fun s a hs => ⟨step_timeLeft_nonneg s a hs.1, step_chat_le_50 s a hs.2⟩)
    ops initRoom ⟨by simp [initRoom], by simp [initRoom]⟩

/-- The active player the design associates with each phase: `A` in
`roundA`, `B` in `roundB`, none elsewhere. -/
def apOf : Phase → Option Player
  | .roundA => some .A
  | .roundB => some .B
  | _ => none

/-- Admin actions preserve the phase/activePlayer correspondence. -/
theorem adminAction_apOf (r : RoomState) (a : AdminAction)
    (h : r.activePlayer = apOf r.phase) :
    (adminAction r a).activePlayer = apOf (adminAction r a).phase := by
  obtain ⟨p, t, ap, v, c, d⟩ := r
  cases a with
  | start => simp [adminAction, apOf]
  | next_round => cases p <;> simp_all [adminAction, apOf]
  | reset => simp [adminAction, apOf]

/-- The scheduler tick preserves the phase/activePlayer correspondence. -/
theorem tick_apOf (r : RoomState) (h : r.activePlayer = apOf r.phase) :
    (tick r).activePlayer = apOf (tick r).phase := by
  obtain ⟨p, t, ap, v, c, d⟩ := r
  simp only [tick]
  split_ifs <;> cases p <;> simp_all [apOf]

/-- C3: in every room state reachable from the initial state by admin
actions and scheduler ticks, `activePlayer` is `A` exactly when the phase is
`roundA`, `B` exactly when the phase is `roundB`, and `none` in every other
phase. -/
theorem reachable_activePlayer_matches_phase (ops : List PhaseOp) :
    ((ops.foldl phaseStep initRoom).phase = .roundA ↔
      (ops.foldl phaseStep initRoom).activePlayer = some .A) ∧
    ((ops.foldl phaseStep initRoom).phase = .roundB ↔
      (ops.foldl phaseStep initRoom).activePlayer = some .B) ∧
    ((ops.foldl phaseStep initRoom).phase ≠ .roundA →
      (ops.foldl phaseStep initRoom).phase ≠ .roundB →
      (ops.foldl phaseStep initRoom).activePlayer = none) := by
  have h : (ops.foldl phaseStep initRoom).activePlayer
      = apOf (ops.foldl phaseStep initRoom).phase := by
    refine foldl_preserve (fun r => r.activePlayer = apOf r.phase) phaseStep
      ?_ ops initRoom rfl
    intro s op hs
    cases op with
    | admin a => exact adminAction_apOf s a hs
    | tick => exact tick_apOf s hs
  rw [h]
  cases (ops.foldl phaseStep initRoom).phase <;> simp [apOf]

/-- Admin actions never produce the `rage` or `finished` phase. -/
theorem adminAction_not_rage_finished (r : RoomState) (a : AdminAction)
    (h : r.phase ≠ .rage ∧ r.phase ≠ .finished) :
    (adminAction r a).phase ≠ .rage ∧ (adminAction r a).phase ≠ .finished := by
  obtain ⟨p, t, ap, v, c, d⟩ := r
  cases a <;> cases p <;> simp_all [adminAction]

/-- The scheduler tick never produces the `rage` or `finished` phase from a
state not already in them. -/
theorem tick_not_rage_finished (r : RoomState)
    (h : r.phase ≠ .rage ∧ r.phase ≠ .finished) :
    (tick r).phase ≠ .rage ∧ (tick r).phase ≠ .finished := by
  obtain ⟨p, t, ap, v, c, d⟩ := r
  simp only [tick]
  split_ifs <;> cases p <;> simp_all

/-- C9: no reachable room state has phase `rage` or `finished`: starting
from the initial state, no sequence of operations (admin actions, messages,
ticks, joins, disconnects) ever transitions a room into either phase. -/
theorem rage_finished_unreachable (ops : List Op) :
    (ops.foldl step initRoom).phase ≠ .rage ∧
    (ops.foldl step initRoom).phase ≠ .finished := by
  refine foldl_preserve (fun r => r.phase ≠ .rage ∧ r.phase ≠ .finished) step
    ?_ ops initRoom ⟨by simp [initRoom], by simp [initRoom]⟩
  intro s op hs
  cases op with
  | admin a => exact adminAction_not_rage_finished s a hs
  | msg p => simpa [step, sendMessage] using hs
  | tick => exact tick_not_rage_finished s hs
  | join => simpa [step, subscriberJoin] using hs
  | disconnect =>
      simp only [step, disconnect]
      split_ifs <;> simpa using hs

/-- C4: from any phase other than `intro`, `roundA`, `roundB`, `ad` (that
is, from `waiting`, `voting`, `finished` or `rage`), the `next_round` admin
action falls back to `roundA` with `timeLeft = 45` and `activePlayer = A`. -/
theorem next_round_fallback (r : RoomState)
    (h : r.phase = .waiting ∨ r.phase = .voting ∨ r.phase = .finished ∨ r.phase = .rage) :
    adminAction r .next_round =
      { r with phase := .roundA, timeLeft := 45, activePlayer := some .A } := by
  rcases h with h | h | h | h <;> simp [adminAction, h]

/-- Witness for C4 at the initial (`waiting`) room. -/
theorem next_round_fallback_witness :
    (initRoom.phase = .waiting ∨ initRoom.phase = .voting ∨
      initRoom.phase = .finished ∨ initRoom.phase = .rage) ∧
    adminAction initRoom .next_round =
      { initRoom with phase := .roundA, timeLeft := 45, activePlayer := some .A } :=
  ⟨Or.inl rfl, next_round_fallback initRoom (Or.inl rfl)⟩

/-- C5: `reset` is idempotent, and a reset room is in `waiting` with
`timeLeft = 0`, no active player, empty chat and donations, and the
viewer count of the room it was applied to. -/
theorem reset_idempotent (r : RoomState) :
    adminAction (adminAction r .reset) .reset = adminAction r .reset ∧
    adminAction r .reset =
      { phase := .waiting, timeLeft := 0, activePlayer := none,
        viewersCount := r.viewersCount, chatMessages := [], donations := [] } :=
  ⟨rfl, rfl⟩

/-- The chat log after `send_message` is the previous log plus the new
message, with `length - 50` entries dropped from the front (`slice(-50)`
drops nothing when the length is at most 50, by `Nat` subtraction). -/
theorem sendMessage_chat (r : RoomState) (p : MsgPayload) :
    (sendMessage r p).chatMessages =
      (r.chatMessages ++ [mkChatMessage p]).drop ((r.chatMessages.length + 1) - 50) := by
  simp only [sendMessage]
  split_ifs with hl
  · simp [List.length_append]
  · simp only [List.length_append, List.length_singleton] at hl
    have h0 : r.chatMessages.length + 1 - 50 = 0 := by omega
    simp [h0]

/-- Folding `send_message` over a payload list appends all created messages
and keeps the last 50 of the whole log. -/
theorem foldl_sendMessage_chat (ps : List MsgPayload) (r : RoomState)
    (h : r.chatMessages.length ≤ 50) :
    (List.foldl sendMessage r ps).chatMessages =
      (r.chatMessages ++ ps.map mkChatMessage).drop
        ((r.chatMessages.length + ps.length) - 50) := by
  induction ps generalizing r with
  | nil =>
      have h0 : r.chatMessages.length + 0 - 50 = 0 := by omega
      rw [List.map_nil, List.append_nil, List.length_nil, h0, List.drop_zero]
      rfl
  | cons p ps ih =>
      have hchat := sendMessage_chat r p
      have hlen : (sendMessage r p).chatMessages.length
          = (r.chatMessages.length + 1) - ((r.chatMessages.length + 1) - 50) := by
        rw [hchat]
        simp [List.length_drop]
      have hle : (sendMessage r p).chatMessages.length ≤ 50 := by omega
      rw [List.foldl_cons, ih (sendMessage r p) hle, hlen, hchat]
      have hk : r.chatMessages.length + 1 - 50
          ≤ (r.chatMessages ++ [mkChatMessage p]).length := by
        simp only [List.length_append, List.length_singleton]
        omega
      have e1 : (r.chatMessages ++ [mkChatMessage p]).drop (r.chatMessages.length + 1 - 50)
            ++ ps.map mkChatMessage
          = ((r.chatMessages ++ [mkChatMessage p]) ++ ps.map mkChatMessage).drop
              (r.chatMessages.length + 1 - 50) := by
        conv_rhs => rw [List.drop_append_eq_append_drop]
        rw [Nat.sub_eq_zero_of_le hk, List.drop_zero]
      rw [e1, List.drop_drop, List.append_assoc, List.singleton_append, List.map_cons]
      congr 1
      simp only [List.length_cons, List.length_map]
      omega

/-- C6: starting from a room with an empty chat log, sending 60 messages
leaves exactly the last 50 created messages, in their original relative
order. -/
theorem sixty_messages_keep_last_fifty (r : RoomState) (ps : List MsgPayload)
    (h0 : r.chatMessages = []) (h60 : ps.length = 60) :
    (List.foldl sendMessage r ps).chatMessages = (ps.map mkChatMessage).drop 10 := by
  have h := foldl_sendMessage_chat ps r (by simp [h0])
  rw [h0, h60] at h
  simpa using h

/-- A fixed payload used by concrete witnesses. -/
def plainPayload : MsgPayload :=
  { id := "1700000000000abc", user := "alice", text := "hello", isDonation := false, amount := none }

/-- Witness for C6: 60 copies of a concrete payload sent to the initial
room. -/
theorem sixty_messages_keep_last_fifty_witness :
    initRoom.chatMessages = [] ∧ (List.replicate 60 plainPayload).length = 60 ∧
    (List.foldl sendMessage initRoom (List.replicate 60 plainPayload)).chatMessages =
      ((List.replicate 60 plainPayload).map mkChatMessage).drop 10 :=
  ⟨rfl, by simp,
    sixty_messages_keep_last_fifty initRoom (List.replicate 60 plainPayload) rfl (by simp)⟩

/-- C7: a duplicate disconnect on a room with one viewer leaves the count at
0 (not -1), and every operation preserves non-negativity of
`viewersCount`. -/
theorem viewersCount_never_negative (r : RoomState) (op : Op) :
    (r.viewersCount = 1 → (disconnect (disconnect r)).viewersCount = 0) ∧
    (0 ≤ r.viewersCount → 0 ≤ (step r op).viewersCount) := by
  constructor
  · intro h1
    simp [disconnect, h1]
  · intro h
    cases op with
    | admin a =>
        cases a <;> simp only [step, adminAction] <;> (try split_ifs) <;> simpa
    | msg p => simpa [step, sendMessage] using h
    | tick =>
        obtain ⟨p, t, a, v, c, d⟩ := r
        simp only [step, tick]
        split_ifs <;> simpa using h
    | join =>
        simp only [step, subscriberJoin]
        omega
    | disconnect =>
        obtain ⟨p, t, a, v, c, d⟩ := r
        simp only [step, disconnect]
        split_ifs <;> simp_all <;> omega

/-- A room with exactly one viewer, used by the C7 witness. -/
def oneViewerRoom : RoomState := { initRoom with viewersCount := 1 }

/-- Witness for C7 at a concrete one-viewer room. -/
theorem viewersCount_never_negative_witness :
    oneViewerRoom.viewersCount = 1 ∧
    (disconnect (disconnect oneViewerRoom)).viewersCount = 0 ∧
    0 ≤ (step oneViewerRoom .join).viewersCount :=
  ⟨rfl, (viewersCount_never_negative oneViewerRoom .join).1 rfl,
    (viewersCount_never_negative oneViewerRoom .join).2 (by decide)⟩

/-- A donation message whose `amount` field is absent, the input on which
the `send_message` handler's donation push diverges from the created chat
message. -/
def donationNoAmount : MsgPayload :=
  { id := "1700000000001xyz", user := "alice", text := "gg", isDonation := true, amount := none }

/-- C8 evaluation: at a donation payload with an absent `amount`, the
created chat message carries the defaulted amount 0, but the entry pushed
onto `donations` carries the raw absent amount (`undefined`), which is not
the defaulted 0 of the chat message. -/
theorem donation_amount_not_defaulted :
    (mkChatMessage donationNoAmount).amount = 0 ∧
    (sendMessage initRoom donationNoAmount).donations =
      [{ user := "alice", amount := none }] ∧
    ({ user := "alice", amount := none } : Donation).amount ≠
      some (mkChatMessage donationNoAmount).amount :=
  ⟨rfl, rfl, by simp⟩

/-- C10: a token request with an absent `roomName` or `participantName` is
rejected with HTTP 400 and the room registry is left exactly as it was. -/
theorem token_missing_field_rejected (rs : Registry)
    (roomName participantName role apiKey apiSecret : Option String) (mintOk : Bool)
    (h : roomName = none ∨ participantName = none) :
    tokenRoute rs roomName participantName role apiKey apiSecret mintOk = (400, rs) := by
  rcases h with h | h <;> subst h <;> simp [tokenRoute, strPresent]

/-- Witness for C10 at a concrete request with no `roomName`. -/
theorem token_missing_field_rejected_witness :
    ((none : Option String) = none ∨ (some "p" : Option String) = none) ∧
    tokenRoute [] none (some "p") (some "debater") (some "k") (some "s") true = (400, []) :=
  ⟨Or.inl rfl,
    token_missing_field_rejected [] none (some "p") (some "debater") (some "k") (some "s") true
      (Or.inl rfl)⟩

/-- Witness for C2 at a concrete operation sequence. -/
theorem reachable_timer_and_chat_bounds_witness :
    0 ≤ ([Op.admin .start, Op.tick, Op.join, Op.msg plainPayload,
      Op.disconnect].foldl step initRoom).timeLeft ∧
    ([Op.admin .start, Op.tick, Op.join, Op.msg plainPayload,
      Op.disconnect].foldl step initRoom).chatMessages.length ≤ 50 :=
  reachable_timer_and_chat_bounds
    [Op.admin .start, Op.tick, Op.join, Op.msg plainPayload, Op.disconnect]

/-- Witness for C3 at a concrete phase-op sequence. -/
theorem reachable_activePlayer_matches_phase_witness :
    (([PhaseOp.admin .start, PhaseOp.admin .next_round].foldl phaseStep initRoom).phase = .roundA ↔
      ([PhaseOp.admin .start, PhaseOp.admin .next_round].foldl phaseStep initRoom).activePlayer = some .A) ∧
    (([PhaseOp.admin .start, PhaseOp.admin .next_round].foldl phaseStep initRoom).phase = .roundB ↔
      ([PhaseOp.admin .start, PhaseOp.admin .next_round].foldl phaseStep initRoom).activePlayer = some .B) ∧
    (([PhaseOp.admin .start, PhaseOp.admin .next_round].foldl phaseStep initRoom).phase ≠ .roundA →
      ([PhaseOp.admin .start, PhaseOp.admin .next_round].foldl phaseStep initRoom).phase ≠ .roundB →
      ([PhaseOp.admin .start, PhaseOp.admin .next_round].foldl phaseStep initRoom).activePlayer = none) :=
  reachable_activePlayer_matches_phase [PhaseOp.admin .start, PhaseOp.admin .next_round]

/-- Witness for C5 at a concrete room. -/
theorem reset_idempotent_witness :
    adminAction (adminAction oneViewerRoom .reset) .reset = adminAction oneViewerRoom .reset ∧
    adminAction oneViewerRoom .reset =
      { phase := .waiting, timeLeft := 0, activePlayer := none,
        viewersCount := oneViewerRoom.viewersCount, chatMessages := [], donations := [] } :=
  reset_idempotent oneViewerRoom

/-- Witness for C9 at a concrete operation sequence. -/
theorem rage_finished_unreachable_witness :
    ([Op.admin .start, Op.tick, Op.admin .next_round].foldl step initRoom).phase ≠ .rage ∧
    ([Op.admin .start, Op.tick, Op.admin .next_round].foldl step initRoom).phase ≠ .finished :=
  rage_finished_unreachable [Op.admin .start, Op.tick, Op.admin .next_round]
